import Mathlib

/-!
Verification of the placement reminder bot core (`placement_reminder_bot.py`).

Time is modelled as `Int` (minutes for the scheduler ladder, abstract units
for the rate limiter).  MongoDB collections become Lean lists; `find_one`
becomes `List.find?`, `delete_one` becomes `List.eraseP`, and upserting
`update_one` becomes a map-or-append.  The APScheduler job registry becomes a
list of `Job` records keyed by `(reminder_id, ladder_index)`, matching the
job ids `f"{reminder_id}_{i}"` of the source.
-/

/-- Rate-limit threshold `REQUEST_LIMIT = 5` from the source. -/
def REQUEST_LIMIT : Nat := 5

/-- Sliding-window width `TIME_WINDOW = 10` from the source. -/
def TIME_WINDOW : Int := 10

/-- A registered one-shot timer.  The source keys jobs by the string
`f"{reminder_id}_{i}"`; since reminder ids are fixed-length ObjectId hex
strings (no underscore), that key is equivalent to the pair `(rid, idx)`. -/
structure Job where
  rid : String
  idx : Nat
  runTime : Int
  text : String
deriving DecidableEq

/-- The lead-time ladder `_get_intervals` of the source, offsets in minutes. -/
def get_intervals : List (Int × String) :=
  [ (120, "⏰ Reminder in 2 hours:"),
    (60, "⏰ Reminder in 1 hour:"),
    (30, "⏰ Reminder in 30 minutes:"),
    (15, "⏰ Reminder in 15 minutes:"),
    (0, "🔔 It\x27s time!") ]

/-- The enumerated loop body of `schedule_reminder_jobs`: for each
`(i, (offset, pfx))`, when `reminder_time - offset > now` the existing job
with key `(reminder_id, i)` is removed (the source's try/except
`remove_job`) and a fresh one is added. -/
def scheduleGo (now : Int) (reminder_id : String) (reminder_time : Int) (message : String) :
    List Job → List (Nat × Int × String) → List Job
  | js, [] => js
  | js, e :: rest =>
      scheduleGo now reminder_id reminder_time message
        (if reminder_time - e.2.1 > now then
           js.filter (fun j => !(j.rid == reminder_id && j.idx == e.1)) ++
             [⟨reminder_id, e.1, reminder_time - e.2.1, e.2.2 ++ " " ++ message⟩]
         else js) rest

/-- `schedule_reminder_jobs` of the source. -/
def schedule_reminder_jobs (jobs : List Job) (now : Int) (reminder_id : String)
    (reminder_time : Int) (message : String) : List Job :=
  scheduleGo now reminder_id reminder_time message jobs get_intervals.enum

/-- `remove_reminder_jobs` of the source: drop every job whose id starts
with `f"{reminder_id}_"`, i.e. whose `rid` component matches. -/
def remove_reminder_jobs (jobs : List Job) (reminder_id : String) : List Job :=
  jobs.filter (fun j => !(j.rid == reminder_id))

/-- The live timers currently registered for a given reminder id. -/
def jobsFor (reminder_id : String) (jobs : List Job) : List Job :=
  jobs.filter (fun j => j.rid == reminder_id)

theorem jobsFor_filter_key (rid : String) (i : Nat) (js : List Job) :
    jobsFor rid (js.filter (fun j => !(j.rid == rid && j.idx == i)))
      = (jobsFor rid js).filter (fun j => !(j.idx == i)) := by
  induction js with
  | nil => rfl
  | cons x xs ih =>
      by_cases hr : x.rid = rid
      · by_cases hi : x.idx = i
        · simp [jobsFor, List.filter_cons, hr, hi] at ih ⊢
          exact ih
        · simp [jobsFor, List.filter_cons, hr, hi] at ih ⊢
          exact ih
      · simp [jobsFor, List.filter_cons, hr] at ih ⊢
        exact ih

theorem jobsFor_append (rid : String) (a b : List Job) :
    jobsFor rid (a ++ b) = jobsFor rid a ++ jobsFor rid b := by
  simp [jobsFor, List.filter_append]

/-- Counting lemma for the scheduling loop: starting from a job list none of
whose `rid`-jobs uses an index occurring in `entries`, and with the entry
indices pairwise distinct, the number of `rid`-jobs grows by exactly the
number of entries whose fire time is strictly in the future. -/
theorem jobsFor_scheduleGo_length (now : Int) (rid : String) (rtime : Int) (msg : String)
    (entries : List (Nat × Int × String)) (js : List Job)
    (hidx : ∀ j ∈ jobsFor rid js, ∀ e ∈ entries, j.idx ≠ e.1)
    (hnodup : (entries.map Prod.fst).Nodup) :
    (jobsFor rid (scheduleGo now rid rtime msg js entries)).length
      = (jobsFor rid js).length + entries.countP (fun e => rtime - e.2.1 > now) := by
  induction entries generalizing js with
  | nil => simp [scheduleGo]
  | cons e rest ih =>
      by_cases hc : rtime - e.2.1 > now
      · have hkeep : (jobsFor rid js).filter (fun j => !(j.idx == e.1)) = jobsFor rid js := by
          apply List.filter_eq_self.mpr
          intro j hj
          have := hidx j hj e (List.mem_cons_self e rest)
          simp [this]
        have hstep :
            jobsFor rid (js.filter (fun j => !(j.rid == rid && j.idx == e.1)) ++
              [⟨rid, e.1, rtime - e.2.1, e.2.2 ++ " " ++ msg⟩])
              = jobsFor rid js ++ [⟨rid, e.1, rtime - e.2.1, e.2.2 ++ " " ++ msg⟩] := by
          rw [jobsFor_append, jobsFor_filter_key, hkeep]
          simp [jobsFor]
        have hnodup' : (rest.map Prod.fst).Nodup := (List.nodup_cons.mp hnodup).2
        have hnotmem : e.1 ∉ rest.map Prod.fst := (List.nodup_cons.mp hnodup).1
        have hidx' : ∀ j ∈ jobsFor rid (js.filter (fun j => !(j.rid == rid && j.idx == e.1)) ++
              [⟨rid, e.1, rtime - e.2.1, e.2.2 ++ " " ++ msg⟩]),
            ∀ e2 ∈ rest, j.idx ≠ e2.1 := by
          intro j hj e2 he2
          rw [hstep] at hj
          rcases List.mem_append.mp hj with hj1 | hj2
          · exact hidx j hj1 e2 (List.mem_cons_of_mem e he2)
          · have hj2' : j = ⟨rid, e.1, rtime - e.2.1, e.2.2 ++ " " ++ msg⟩ := by
              simpa using hj2
            subst hj2'
            intro hcontra
            have heq : e.1 = e2.1 := hcontra
            exact hnotmem (heq ▸ List.mem_map_of_mem Prod.fst he2)
        have := ih (js.filter (fun j => !(j.rid == rid && j.idx == e.1)) ++
              [⟨rid, e.1, rtime - e.2.1, e.2.2 ++ " " ++ msg⟩]) hidx' hnodup'
        rw [hstep] at this
        simp only [scheduleGo, if_pos hc, this, List.length_append]
        rw [List.countP_cons]
        simp [hc]
        omega
      · have hnodup' : (rest.map Prod.fst).Nodup := (List.nodup_cons.mp hnodup).2
        have hidx' : ∀ j ∈ jobsFor rid js, ∀ e2 ∈ rest, j.idx ≠ e2.1 := by
          intro j hj e2 he2
          exact hidx j hj e2 (List.mem_cons_of_mem e he2)
        have := ih js hidx' hnodup'
        simp only [scheduleGo, if_neg hc, this]
        rw [List.countP_cons]
        simp [hc]

theorem get_intervals_enum :
    get_intervals.enum =
      [ (0, 120, "⏰ Reminder in 2 hours:"),
        (1, 60, "⏰ Reminder in 1 hour:"),
        (2, 30, "⏰ Reminder in 30 minutes:"),
        (3, 15, "⏰ Reminder in 15 minutes:"),
        (4, 0, "🔔 It\x27s time!") ] := by
  rfl

theorem countP_intervals_five (now rtime : Int) (h : rtime > now + 120) :
    (get_intervals.enum).countP (fun e => rtime - e.2.1 > now) = 5 := by
  rw [get_intervals_enum]
  have h120 : rtime - 120 > now := by omega
  have h60 : rtime - 60 > now := by omega
  have h30 : rtime - 30 > now := by omega
  have h15 : rtime - 15 > now := by omega
  have h0 : now < rtime := by omega
  simp [List.countP_cons, h120, h60, h30, h15, h0]

theorem countP_intervals_two (now rtime : Int) (h1 : now + 15 < rtime) (h2 : rtime ≤ now + 30) :
    (get_intervals.enum).countP (fun e => rtime - e.2.1 > now) = 2 := by
  rw [get_intervals_enum]
  have h120 : ¬(rtime - 120 > now) := by omega
  have h60 : ¬(rtime - 60 > now) := by omega
  have h30 : ¬(rtime - 30 > now) := by omega
  have h15 : rtime - 15 > now := by omega
  have h0 : now < rtime := by omega
  simp [List.countP_cons, h120, h60, h30, h15, h0]

theorem schedule_noop_of_past (jobs : List Job) (now rtime : Int) (rid msg : String)
    (h : rtime ≤ now) :
    schedule_reminder_jobs jobs now rid rtime msg = jobs := by
  have h120 : ¬(rtime - 120 > now) := by omega
  have h60 : ¬(rtime - 60 > now) := by omega
  have h30 : ¬(rtime - 30 > now) := by omega
  have h15 : ¬(rtime - 15 > now) := by omega
  have h0 : ¬(now < rtime) := by omega
  simp only [schedule_reminder_jobs, get_intervals_enum, scheduleGo]
  simp [h120, h60, h30, h15, h0]

/-- C1 (amended): when `targetTime` is strictly more than `now + 2h`,
`schedule_reminder_jobs` registers exactly 5 timers; when
`now + 15m < targetTime ≤ now + 30m` exactly 2; when `targetTime ≤ now`,
0 timers and the job list is completely unchanged.  A ladder candidate is
registered only when its fire time `targetTime - offset` is strictly in the
future. -/
theorem c1_schedule_counts (jobs : List Job) (now rtime : Int) (rid msg : String)
    (hfresh : jobsFor rid jobs = []) :
    (rtime > now + 120 →
      (jobsFor rid (schedule_reminder_jobs jobs now rid rtime msg)).length = 5) ∧
    (now + 15 < rtime → rtime ≤ now + 30 →
      (jobsFor rid (schedule_reminder_jobs jobs now rid rtime msg)).length = 2) ∧
    (rtime ≤ now → schedule_reminder_jobs jobs now rid rtime msg = jobs) := by
  have hidx : ∀ j ∈ jobsFor rid jobs, ∀ e ∈ get_intervals.enum, j.idx ≠ e.1 := by
    intro j hj
    rw [hfresh] at hj
    exact absurd hj (List.not_mem_nil j)
  have hnodup : ((get_intervals.enum).map Prod.fst).Nodup := by decide
  have hlen := jobsFor_scheduleGo_length now rid rtime msg get_intervals.enum jobs hidx hnodup
  rw [hfresh] at hlen
  simp only [List.length_nil, Nat.zero_add] at hlen
  refine ⟨?_, ?_, ?_⟩
  · intro h
    rw [schedule_reminder_jobs, hlen, countP_intervals_five now rtime h]
  · intro h1 h2
    rw [schedule_reminder_jobs, hlen, countP_intervals_two now rtime h1 h2]
  · intro h
    exact schedule_noop_of_past jobs now rtime rid msg h

/-- C1 witness: concrete instances of the three count cases. -/
theorem c1_schedule_counts_witness :
    (jobsFor "r" (schedule_reminder_jobs [] 0 "r" 121 "m")).length = 5 ∧
    (jobsFor "r" (schedule_reminder_jobs [] 0 "r" 30 "m")).length = 2 ∧
    schedule_reminder_jobs [] 0 "r" 0 "m" = [] :=
  ⟨(c1_schedule_counts [] 0 121 "r" "m" (by decide)).1 (by decide),
   (c1_schedule_counts [] 0 30 "r" "m" (by decide)).2.1 (by decide) (by decide),
   (c1_schedule_counts [] 0 0 "r" "m" (by decide)).2.2 (by decide)⟩

/-- C1 counterexample: a reminder whose target time is exactly `now + 2h`
satisfies the claim's premise `targetTime ≥ now + 2h`, yet only 4 timers are
registered, because the 2h candidate's fire time equals `now` and is not
strictly in the future. -/
theorem c1_counterexample :
    (120 : Int) ≥ 0 + 120 ∧
    (jobsFor "r" (schedule_reminder_jobs [] 0 "r" 120 "m")).length = 4 := by
  constructor
  · decide
  · rfl

/-- A document of the `admins` collection. -/
structure RoleEntry where
  user_id : Int
  role : String
deriving DecidableEq

/-- A document of the `blocked_users` collection. -/
structure BlockEntry where
  user_id : Int
  reason : String
  blocked_at : Int
deriving DecidableEq

/-- A document of the `reminders` collection. -/
structure Reminder where
  rid : String
  rtime : Int
  message : String
  created_by : Int
  creator_name : String
deriving DecidableEq

/-- A document of the `pending_deletes` collection. -/
structure PendingDelete where
  rid : String
  requested_by : Int
  requested_at : Int
deriving DecidableEq

/-- The whole mutable state of the bot process: the four Mongo collections,
the APScheduler job registry, and the in-memory `user_requests` map of the
rate limiter. -/
structure BotState where
  admins : List RoleEntry
  reminders : List Reminder
  blocked : List BlockEntry
  pending_deletes : List PendingDelete
  jobs : List Job
  user_requests : List (Int × List Int)
deriving DecidableEq

/-- `is_superadmin` of the source: `admins.find_one({user_id, role: "superadmin"})`. -/
def is_superadmin (s : BotState) (user_id : Int) : Bool :=
  s.admins.any (fun a => a.user_id == user_id && a.role == "superadmin")

/-- `is_admin_or_superadmin` of the source: any role entry for the user. -/
def is_admin_or_superadmin (s : BotState) (user_id : Int) : Bool :=
  s.admins.any (fun a => a.user_id == user_id)

/-- `is_blocked` of the source. -/
def is_blocked (s : BotState) (user_id : Int) : Bool :=
  s.blocked.any (fun b => b.user_id == user_id)

/-- `block_user` of the source: `update_one(..., upsert=True)` with default
reason `"Spam detected"` supplied at every call site. -/
def block_user (bl : List BlockEntry) (user_id : Int) (reason : String) (now : Int) :
    List BlockEntry :=
  if bl.any (fun b => b.user_id == user_id) then
    bl.map (fun b => if b.user_id == user_id then ⟨b.user_id, reason, now⟩ else b)
  else bl ++ [⟨user_id, reason, now⟩]

/-- Lookup in the in-memory `user_requests` defaultdict. -/
def getRequests (m : List (Int × List Int)) (user_id : Int) : List Int :=
  match m.find? (fun p => p.1 == user_id) with
  | some p => p.2
  | none => []

/-- Assignment `user_requests[user_id] = ts` on the defaultdict. -/
def setRequests (m : List (Int × List Int)) (user_id : Int) (ts : List Int) :
    List (Int × List Int) :=
  if m.any (fun p => p.1 == user_id) then
    m.map (fun p => if p.1 == user_id then (p.1, ts) else p)
  else m ++ [(user_id, ts)]

/-- Result of one `rate_limit` call: the returned Bool plus the updated
in-memory window map and blocked collection. -/
structure RateResult where
  allowed : Bool
  user_requests : List (Int × List Int)
  blocked : List BlockEntry
deriving DecidableEq

/-- `rate_limit` of the source: prune timestamps with `now - t >= TIME_WINDOW`,
append `now`, and block (with the default reason `"Spam detected"`) when the
count exceeds `REQUEST_LIMIT`. -/
def rate_limit (m : List (Int × List Int)) (bl : List BlockEntry) (user_id : Int) (now : Int) :
    RateResult :=
  let kept := (getRequests m user_id).filter (fun t => now - t < TIME_WINDOW)
  let ts := kept ++ [now]
  let m2 := setRequests m user_id ts
  if ts.length > REQUEST_LIMIT then
    ⟨false, m2, block_user bl user_id "Spam detected" now⟩
  else
    ⟨true, m2, bl⟩

/-- Result of one `check_spam` call. -/
structure SpamResult where
  allowed : Bool
  state : BotState
  replies : List String
deriving DecidableEq

/-- `check_spam` of the source: operators bypass everything; blocked users
are denied; otherwise the rate limiter decides (and may block). -/
def check_spam (s : BotState) (user_id : Int) (now : Int) : SpamResult :=
  if is_admin_or_superadmin s user_id then ⟨true, s, []⟩
  else if is_blocked s user_id then
    ⟨false, s, ["⛔ You are blocked. Contact the superadmin to be unblocked."]⟩
  else
    let r := rate_limit s.user_requests s.blocked user_id now
    let s2 := { s with user_requests := r.user_requests, blocked := r.blocked }
    if r.allowed then ⟨true, s2, []⟩
    else ⟨false, s2, ["⛔ You have been blocked for spamming. Contact the superadmin."]⟩

/-- A sequence of `check_spam` calls by one caller at the given times,
threading the state; returns the final state and the list of verdicts. -/
def runSpamChecks (s : BotState) (user_id : Int) : List Int → BotState × List Bool
  | [] => (s, [])
  | t :: rest =>
      let r := check_spam s user_id t
      let p := runSpamChecks r.state user_id rest
      (p.1, r.allowed :: p.2)

/-- C3: a caller holding an admin or superadmin role entry always passes
`check_spam` with the state completely untouched (neither the sliding
window nor the block list is consulted or modified), and any sequence of
calls — e.g. 100 in one window — is allowed at every step. -/
theorem c3_operator_never_blocked (s : BotState) (user_id : Int) (now : Int)
    (h : is_admin_or_superadmin s user_id = true) :
    check_spam s user_id now = ⟨true, s, []⟩ ∧
    ∀ times : List Int, runSpamChecks s user_id times = (s, times.map (fun _ => true)) := by
  have hone : ∀ t : Int, check_spam s user_id t = ⟨true, s, []⟩ := by
    intro t
    simp [check_spam, h]
  refine ⟨hone now, ?_⟩
  intro times
  induction times with
  | nil => rfl
  | cons t rest ih =>
      simp [runSpamChecks, hone t, ih]

/-- C3 witness: an admin making 100 requests at time 0 is allowed every time. -/
theorem c3_operator_never_blocked_witness :
    runSpamChecks ⟨[⟨7, "admin"⟩], [], [], [], [], []⟩ 7 (List.replicate 100 0)
      = (⟨[⟨7, "admin"⟩], [], [], [], [], []⟩, List.replicate 100 true) := by
  have h := (c3_operator_never_blocked ⟨[⟨7, "admin"⟩], [], [], [], [], []⟩ 7 0
    (by decide)).2 (List.replicate 100 0)
  rw [h]
  simp [List.map_replicate]

theorem getRequests_setRequests (m : List (Int × List Int)) (user_id : Int) (ts : List Int) :
    getRequests (setRequests m user_id ts) user_id = ts := by
  induction m with
  | nil => simp [setRequests, getRequests]
  | cons p m ih =>
      by_cases hp : p.1 = user_id
      · simp [setRequests, getRequests, hp]
      · by_cases hm : m.any (fun q => q.1 == user_id)
        · simp [setRequests, getRequests, hp, hm, List.find?_cons] at ih ⊢
          exact ih
        · simp [setRequests, getRequests, hp, hm, List.find?_cons] at ih ⊢
          exact ih

theorem spam_allow (s : BotState) (user_id now : Int) (kept : List Int)
    (hop : is_admin_or_superadmin s user_id = false)
    (hbl : is_blocked s user_id = false)
    (hkept : (getRequests s.user_requests user_id).filter
      (fun t => now - t < TIME_WINDOW) = kept)
    (hlen : kept.length + 1 ≤ REQUEST_LIMIT) :
    check_spam s user_id now =
      ⟨true, { s with user_requests := setRequests s.user_requests user_id (kept ++ [now]) },
        []⟩ := by
  have hc : ¬(REQUEST_LIMIT < kept.length + 1) := by omega
  simp [check_spam, hop, hbl, rate_limit, hkept, hc]

theorem spam_deny (s : BotState) (user_id now : Int) (kept : List Int)
    (hop : is_admin_or_superadmin s user_id = false)
    (hbl : is_blocked s user_id = false)
    (hkept : (getRequests s.user_requests user_id).filter
      (fun t => now - t < TIME_WINDOW) = kept)
    (hlen : kept.length + 1 > REQUEST_LIMIT) :
    check_spam s user_id now =
      ⟨false,
        { s with
            user_requests := setRequests s.user_requests user_id (kept ++ [now]),
            blocked := block_user s.blocked user_id "Spam detected" now },
        ["⛔ You have been blocked for spamming. Contact the superadmin."]⟩ := by
  have hc : REQUEST_LIMIT < kept.length + 1 := by omega
  simp [check_spam, hop, hbl, rate_limit, hkept, hc]

/-- C4 counterexample: a non-operator caller (id 42) with five recent request
timestamps inside the window makes a sixth request at time 5.  The request is
denied, but the BlockEntry the guard writes carries the reason
"Spam detected" — `rate_limit` calls `block_user` with its default reason —
and no entry with reason "rate limit exceeded" exists. -/
theorem c4_counterexample :
    (check_spam ⟨[⟨1, "superadmin"⟩], [], [], [], [], [(42, [0, 1, 2, 3, 4])]⟩ 42 5).allowed
        = false ∧
    ((check_spam ⟨[⟨1, "superadmin"⟩], [], [], [], [], [(42, [0, 1, 2, 3, 4])]⟩ 42
        5).state.blocked.any (fun b => b.reason == "rate limit exceeded")) = false ∧
    ((check_spam ⟨[⟨1, "superadmin"⟩], [], [], [], [], [(42, [0, 1, 2, 3, 4])]⟩ 42
        5).state.blocked.any
        (fun b => b.user_id == 42 && b.reason == "Spam detected")) = true := by
  decide


/-- C4 (amended): for a non-operator, non-blocked caller the guard prunes
timestamps older than the window W = 10, appends the current time, and when
the count exceeds N = 5 it upserts a BlockEntry with reason "Spam detected"
(the source's default, not "rate limit exceeded") and denies.  Consequently
a fresh non-operator issuing 6 requests within one window is allowed five
times and blocked on the 6th. -/
theorem c4_rate_limit_blocks_sixth (s : BotState) (user_id t0 t1 t2 t3 t4 t5 : Int)
    (hop : is_admin_or_superadmin s user_id = false)
    (hbl : is_blocked s user_id = false)
    (hreq : getRequests s.user_requests user_id = [])
    (h01 : t0 ≤ t1) (h12 : t1 ≤ t2) (h23 : t2 ≤ t3) (h34 : t3 ≤ t4) (h45 : t4 ≤ t5)
    (hwin : t5 - t0 < TIME_WINDOW) :
    (runSpamChecks s user_id [t0, t1, t2, t3, t4, t5]).2
        = [true, true, true, true, true, false] ∧
    ((runSpamChecks s user_id [t0, t1, t2, t3, t4, t5]).1.blocked.any
        (fun b => b.user_id == user_id && b.reason == "Spam detected")) = true := by
  have hw : t5 - t0 < 10 := hwin
  have hop2 : ∀ m, is_admin_or_superadmin { s with user_requests := m } user_id = false :=
    fun _ => hop
  have hbl2 : ∀ m, is_blocked { s with user_requests := m } user_id = false :=
    fun _ => hbl
  have hblany : s.blocked.any (fun b => b.user_id == user_id) = false := hbl
  obtain ⟨m1, hm1⟩ : ∃ m, m = setRequests s.user_requests user_id [t0] := ⟨_, rfl⟩
  obtain ⟨m2, hm2⟩ : ∃ m, m = setRequests m1 user_id [t0, t1] := ⟨_, rfl⟩
  obtain ⟨m3, hm3⟩ : ∃ m, m = setRequests m2 user_id [t0, t1, t2] := ⟨_, rfl⟩
  obtain ⟨m4, hm4⟩ : ∃ m, m = setRequests m3 user_id [t0, t1, t2, t3] := ⟨_, rfl⟩
  obtain ⟨m5, hm5⟩ : ∃ m, m = setRequests m4 user_id [t0, t1, t2, t3, t4] := ⟨_, rfl⟩
  obtain ⟨m6, hm6⟩ : ∃ m, m = setRequests m5 user_id [t0, t1, t2, t3, t4, t5] := ⟨_, rfl⟩
  have g1 : getRequests m1 user_id = [t0] := by
    rw [hm1]; exact getRequests_setRequests s.user_requests user_id [t0]
  have g2 : getRequests m2 user_id = [t0, t1] := by
    rw [hm2]; exact getRequests_setRequests m1 user_id [t0, t1]
  have g3 : getRequests m3 user_id = [t0, t1, t2] := by
    rw [hm3]; exact getRequests_setRequests m2 user_id [t0, t1, t2]
  have g4 : getRequests m4 user_id = [t0, t1, t2, t3] := by
    rw [hm4]; exact getRequests_setRequests m3 user_id [t0, t1, t2, t3]
  have g5 : getRequests m5 user_id = [t0, t1, t2, t3, t4] := by
    rw [hm5]; exact getRequests_setRequests m4 user_id [t0, t1, t2, t3, t4]
  have e1 : check_spam s user_id t0 = ⟨true, { s with user_requests := m1 }, []⟩ := by
    rw [hm1]
    have h := spam_allow s user_id t0 [] hop hbl (by rw [hreq]; rfl) (by simp [REQUEST_LIMIT])
    simpa using h
  have e2 : check_spam { s with user_requests := m1 } user_id t1 =
      ⟨true, { s with user_requests := m2 }, []⟩ := by
    rw [hm2]
    have hk : (getRequests ({ s with user_requests := m1 } : BotState).user_requests
        user_id).filter (fun t => t1 - t < TIME_WINDOW) = [t0] := by
      have hs : ({ s with user_requests := m1 } : BotState).user_requests = m1 := rfl
      rw [hs, g1]
      have : t1 - t0 < TIME_WINDOW := by show t1 - t0 < 10; omega
      simp [this]
    have h := spam_allow { s with user_requests := m1 } user_id t1 [t0]
      (hop2 m1) (hbl2 m1) hk (by simp [REQUEST_LIMIT])
    simpa using h
  have e3 : check_spam { s with user_requests := m2 } user_id t2 =
      ⟨true, { s with user_requests := m3 }, []⟩ := by
    rw [hm3]
    have hk : (getRequests ({ s with user_requests := m2 } : BotState).user_requests
        user_id).filter (fun t => t2 - t < TIME_WINDOW) = [t0, t1] := by
      have hs : ({ s with user_requests := m2 } : BotState).user_requests = m2 := rfl
      rw [hs, g2]
      have w0 : t2 - t0 < TIME_WINDOW := by show t2 - t0 < 10; omega
      have w1 : t2 - t1 < TIME_WINDOW := by show t2 - t1 < 10; omega
      simp [w0, w1]
    have h := spam_allow { s with user_requests := m2 } user_id t2 [t0, t1]
      (hop2 m2) (hbl2 m2) hk (by simp [REQUEST_LIMIT])
    simpa using h
  have e4 : check_spam { s with user_requests := m3 } user_id t3 =
      ⟨true, { s with user_requests := m4 }, []⟩ := by
    rw [hm4]
    have hk : (getRequests ({ s with user_requests := m3 } : BotState).user_requests
        user_id).filter (fun t => t3 - t < TIME_WINDOW) = [t0, t1, t2] := by
      have hs : ({ s with user_requests := m3 } : BotState).user_requests = m3 := rfl
      rw [hs, g3]
      have w0 : t3 - t0 < TIME_WINDOW := by show t3 - t0 < 10; omega
      have w1 : t3 - t1 < TIME_WINDOW := by show t3 - t1 < 10; omega
      have w2 : t3 - t2 < TIME_WINDOW := by show t3 - t2 < 10; omega
      simp [w0, w1, w2]
    have h := spam_allow { s with user_requests := m3 } user_id t3 [t0, t1, t2]
      (hop2 m3) (hbl2 m3) hk (by simp [REQUEST_LIMIT])
    simpa using h
  have e5 : check_spam { s with user_requests := m4 } user_id t4 =
      ⟨true, { s with user_requests := m5 }, []⟩ := by
    rw [hm5]
    have hk : (getRequests ({ s with user_requests := m4 } : BotState).user_requests
        user_id).filter (fun t => t4 - t < TIME_WINDOW) = [t0, t1, t2, t3] := by
      have hs : ({ s with user_requests := m4 } : BotState).user_requests = m4 := rfl
      rw [hs, g4]
      have w0 : t4 - t0 < TIME_WINDOW := by show t4 - t0 < 10; omega
      have w1 : t4 - t1 < TIME_WINDOW := by show t4 - t1 < 10; omega
      have w2 : t4 - t2 < TIME_WINDOW := by show t4 - t2 < 10; omega
      have w3 : t4 - t3 < TIME_WINDOW := by show t4 - t3 < 10; omega
      simp [w0, w1, w2, w3]
    have h := spam_allow { s with user_requests := m4 } user_id t4 [t0, t1, t2, t3]
      (hop2 m4) (hbl2 m4) hk (by simp [REQUEST_LIMIT])
    simpa using h
  obtain ⟨bl6, hbl6⟩ : ∃ b, b = block_user s.blocked user_id "Spam detected" t5 := ⟨_, rfl⟩
  have e6 : check_spam { s with user_requests := m5 } user_id t5 =
      ⟨false, { s with user_requests := m6, blocked := bl6 },
        ["⛔ You have been blocked for spamming. Contact the superadmin."]⟩ := by
    rw [hm6, hbl6]
    have hk : (getRequests ({ s with user_requests := m5 } : BotState).user_requests
        user_id).filter (fun t => t5 - t < TIME_WINDOW) = [t0, t1, t2, t3, t4] := by
      have hs : ({ s with user_requests := m5 } : BotState).user_requests = m5 := rfl
      rw [hs, g5]
      have w0 : t5 - t0 < TIME_WINDOW := by show t5 - t0 < 10; omega
      have w1 : t5 - t1 < TIME_WINDOW := by show t5 - t1 < 10; omega
      have w2 : t5 - t2 < TIME_WINDOW := by show t5 - t2 < 10; omega
      have w3 : t5 - t3 < TIME_WINDOW := by show t5 - t3 < 10; omega
      have w4 : t5 - t4 < TIME_WINDOW := by show t5 - t4 < 10; omega
      simp [w0, w1, w2, w3, w4]
    have h := spam_deny { s with user_requests := m5 } user_id t5 [t0, t1, t2, t3, t4]
      (hop2 m5) (hbl2 m5) hk (by simp [REQUEST_LIMIT])
    simpa using h
  constructor
  · simp [runSpamChecks, e1, e2, e3, e4, e5, e6]
  · simp only [runSpamChecks, e1, e2, e3, e4, e5, e6]
    rw [hbl6]
    simp [block_user, hblany, List.any_append]

/-- C4 witness: caller 42 in an empty state issues requests at times
0,1,2,3,4,5; the first five are allowed, the sixth is denied and blocks the
caller with reason "Spam detected". -/
theorem c4_rate_limit_blocks_sixth_witness :
    (runSpamChecks ⟨[⟨1, "superadmin"⟩], [], [], [], [], []⟩ 42 [0, 1, 2, 3, 4, 5]).2
        = [true, true, true, true, true, false] ∧
    ((runSpamChecks ⟨[⟨1, "superadmin"⟩], [], [], [], [], []⟩ 42
        [0, 1, 2, 3, 4, 5]).1.blocked.any
        (fun b => b.user_id == 42 && b.reason == "Spam detected")) = true :=
  c4_rate_limit_blocks_sixth ⟨[⟨1, "superadmin"⟩], [], [], [], [], []⟩ 42 0 1 2 3 4 5
    (by decide) (by decide) (by decide)
    (by decide) (by decide) (by decide) (by decide) (by decide) (by decide)

/-- One store/timer effect of a command handler, recorded in source order. -/
inductive Act where
  | spamCheck
  | roleCheck
  | storeRead
  | insertReminderRecord (rid : String)
  | deleteReminderRecord (rid : String)
  | addTimers (rid : String)
  | cancelTimers (rid : String)
  | upsertPendingRecord (rid : String)
  | deletePendingRecord (rid : String)
deriving DecidableEq

/-- Result of one command handler: the new state, the replies sent back to
the caller (`update.message.reply_text`), the direct messages sent
(`context.bot.send_message`), and the ordered trace of checks and
store/timer effects. -/
structure CmdResult where
  state : BotState
  replies : List String
  messages : List (Int × String)
  trace : List Act
deriving DecidableEq

/-- The `pending_deletes.update_one(..., upsert=True)` call of
`delete_reminder`. -/
def upsertPendingDelete (pd : List PendingDelete) (rid : String) (user_id : Int) (now : Int) :
    List PendingDelete :=
  if pd.any (fun p => p.rid == rid) then
    pd.map (fun p => if p.rid == rid then ⟨p.rid, user_id, now⟩ else p)
  else pd ++ [⟨rid, user_id, now⟩]

/-- `delete_reminder` of the source.  `superadmin_chat` is the
`SUPERADMIN_ID` destination of the out-of-band notification. -/
def delete_reminder (s : BotState) (user_id : Int) (now : Int) (rid : String)
    (superadmin_chat : Int) : CmdResult :=
  let sp := check_spam s user_id now
  if !sp.allowed then ⟨sp.state, sp.replies, [], [Act.spamCheck]⟩
  else
    let s1 := sp.state
    match s1.reminders.find? (fun r => r.rid == rid) with
    | none => ⟨s1, ["❌ Reminder not found."], [], [Act.spamCheck, Act.storeRead]⟩
    | some _ =>
        if is_superadmin s1 user_id then
          ⟨{ s1 with
              reminders := s1.reminders.eraseP (fun r => r.rid == rid),
              jobs := remove_reminder_jobs s1.jobs rid },
            ["✅ Reminder " ++ rid ++ " deleted."], [],
            [Act.spamCheck, Act.storeRead, Act.roleCheck,
              Act.deleteReminderRecord rid, Act.cancelTimers rid]⟩
        else if is_admin_or_superadmin s1 user_id then
          ⟨{ s1 with pending_deletes := upsertPendingDelete s1.pending_deletes rid user_id now },
            ["⌛ Deletion request sent to superadmin."],
            [(superadmin_chat,
              "⚠️ Admin requested deletion of reminder " ++ rid ++ ".")],
            [Act.spamCheck, Act.storeRead, Act.roleCheck, Act.upsertPendingRecord rid]⟩
        else
          ⟨s1, [], [], [Act.spamCheck, Act.storeRead, Act.roleCheck]⟩

/-- `approve_delete` of the source. -/
def approve_delete (s : BotState) (user_id : Int) (now : Int) (rid : String) : CmdResult :=
  let sp := check_spam s user_id now
  if !sp.allowed then ⟨sp.state, sp.replies, [], [Act.spamCheck]⟩
  else
    let s1 := sp.state
    if !(is_superadmin s1 user_id) then ⟨s1, [], [], [Act.spamCheck, Act.roleCheck]⟩
    else
      match s1.pending_deletes.find? (fun p => p.rid == rid) with
      | none => ⟨s1, ["❌ No pending request."], [],
          [Act.spamCheck, Act.roleCheck, Act.storeRead]⟩
      | some req =>
          ⟨{ s1 with
              reminders := s1.reminders.eraseP (fun r => r.rid == rid),
              jobs := remove_reminder_jobs s1.jobs rid,
              pending_deletes := s1.pending_deletes.eraseP (fun p => p.rid == rid) },
            ["✅ Reminder " ++ rid ++ " deleted after approval."],
            [(req.requested_by, "✅ Your deletion request for " ++ rid ++ " was approved.")],
            [Act.spamCheck, Act.roleCheck, Act.storeRead,
              Act.deleteReminderRecord rid, Act.cancelTimers rid,
              Act.deletePendingRecord rid]⟩

/-- `reject_delete` of the source. -/
def reject_delete (s : BotState) (user_id : Int) (now : Int) (rid : String) : CmdResult :=
  let sp := check_spam s user_id now
  if !sp.allowed then ⟨sp.state, sp.replies, [], [Act.spamCheck]⟩
  else
    let s1 := sp.state
    if !(is_superadmin s1 user_id) then ⟨s1, [], [], [Act.spamCheck, Act.roleCheck]⟩
    else
      match s1.pending_deletes.find? (fun p => p.rid == rid) with
      | none => ⟨s1, ["❌ No pending request."], [],
          [Act.spamCheck, Act.roleCheck, Act.storeRead]⟩
      | some req =>
          ⟨{ s1 with pending_deletes := s1.pending_deletes.eraseP (fun p => p.rid == rid) },
            ["🚫 Deletion of " ++ rid ++ " rejected."],
            [(req.requested_by, "🚫 Your deletion request for " ++ rid ++ " was rejected.")],
            [Act.spamCheck, Act.roleCheck, Act.storeRead, Act.deletePendingRecord rid]⟩

/-- `remind` of the source.  Argument parsing and timezone conversion are
abstracted: `reminder_time` is the already-parsed target time and `fresh` is
the ObjectId the store mints for the inserted document.  `channel` is the
broadcast `CHANNEL_ID`. -/
def remind (s : BotState) (user_id : Int) (now : Int) (reminder_time : Int)
    (message : String) (fresh : String) (creator_name : String) (channel : Int) : CmdResult :=
  let sp := check_spam s user_id now
  if !sp.allowed then ⟨sp.state, sp.replies, [], [Act.spamCheck]⟩
  else
    let s1 := sp.state
    if !(is_admin_or_superadmin s1 user_id) then
      ⟨s1, ["❌ You are not an admin."], [], [Act.spamCheck, Act.roleCheck]⟩
    else if message == "" then
      ⟨s1, ["⚠️ Reminder message cannot be empty."], [], [Act.spamCheck, Act.roleCheck]⟩
    else
      ⟨{ s1 with
          reminders := s1.reminders ++ [⟨fresh, reminder_time, message, user_id, creator_name⟩],
          jobs := schedule_reminder_jobs s1.jobs now fresh reminder_time message },
        ["✅ Reminder set (ID: " ++ fresh ++ ")"],
        [(channel, "📌 New reminder! " ++ fresh)],
        [Act.spamCheck, Act.roleCheck, Act.insertReminderRecord fresh, Act.addTimers fresh]⟩

theorem check_spam_operator (s : BotState) (user_id now : Int)
    (h : is_admin_or_superadmin s user_id = true) :
    check_spam s user_id now = ⟨true, s, []⟩ := by
  simp [check_spam, h]

theorem operator_of_superadmin (s : BotState) (user_id : Int)
    (h : is_superadmin s user_id = true) : is_admin_or_superadmin s user_id = true := by
  simp only [is_superadmin, List.any_eq_true, Bool.and_eq_true] at h
  obtain ⟨a, ha, h1, h2⟩ := h
  simp only [is_admin_or_superadmin, List.any_eq_true]
  exact ⟨a, ha, h1⟩

/-- After `delete_one` on a key-unique collection, no document with that key
remains. -/
theorem find?_eraseP_key {α : Type} (key : α → String) (l : List α) (k : String)
    (h : l.Pairwise (fun a b => key a ≠ key b)) :
    (l.eraseP (fun a => key a == k)).find? (fun a => key a == k) = none := by
  induction l with
  | nil => rfl
  | cons x xs ih =>
      rcases List.pairwise_cons.mp h with ⟨hx, hxs⟩
      by_cases hk : key x = k
      · simp only [List.eraseP_cons, hk, beq_self_eq_true, cond_true]
        apply List.find?_eq_none.mpr
        intro y hy
        have : key x ≠ key y := hx y hy
        simp [← hk, this.symm]
      · have hbeq : (key x == k) = false := beq_eq_false_iff_ne.mpr hk
        simp only [List.eraseP_cons, hbeq, cond_false]
        rw [List.find?_cons_of_neg _ (by simp [hk])]
        exact ih hxs

theorem jobsFor_remove (jobs : List Job) (rid : String) :
    jobsFor rid (remove_reminder_jobs jobs rid) = [] := by
  induction jobs with
  | nil => rfl
  | cons j js ih =>
      by_cases h : j.rid = rid
      · simp [jobsFor, remove_reminder_jobs, h]
      · simp [jobsFor, remove_reminder_jobs, h]

/-- C2 counterexample: a superadmin (id 1) deletes the existing reminder
"r1" directly.  In the resulting effect trace the record deletion comes
strictly before the timer cancellation, so the claimed
"timers cancelled first, record deleted afterwards" order is violated. -/
theorem c2_counterexample :
    (delete_reminder ⟨[⟨1, "superadmin"⟩], [⟨"r1", 100, "m", 1, "u1"⟩], [], [],
        [⟨"r1", 0, 50, "x"⟩], []⟩ 1 0 "r1" 1).trace
      = [Act.spamCheck, Act.storeRead, Act.roleCheck,
          Act.deleteReminderRecord "r1", Act.cancelTimers "r1"] ∧
    ¬((Act.cancelTimers "r1") ∈
        ((delete_reminder ⟨[⟨1, "superadmin"⟩], [⟨"r1", 100, "m", 1, "u1"⟩], [], [],
          [⟨"r1", 0, 50, "x"⟩], []⟩ 1 0 "r1" 1).trace.take 4)) := by
  constructor
  · decide
  · decide

/-- C2 (amended): in both reminder-deleting paths — direct superadmin
delete and superadmin approval of a pending request — the Reminder record
is deleted from the store first and the timers are cancelled immediately
afterwards (the opposite of the claimed order), so a crash between the two
steps can leave live timers with no backing Reminder until the next
restart, never an orphan Reminder with no timers. -/
theorem c2_delete_then_cancel (s : BotState) (user_id now : Int) (rid : String)
    (superadmin_chat : Int) (hsup : is_superadmin s user_id = true) :
    (∀ r, s.reminders.find? (fun x => x.rid == rid) = some r →
      (delete_reminder s user_id now rid superadmin_chat).trace
        = [Act.spamCheck, Act.storeRead, Act.roleCheck,
            Act.deleteReminderRecord rid, Act.cancelTimers rid]) ∧
    (∀ req, s.pending_deletes.find? (fun p => p.rid == rid) = some req →
      (approve_delete s user_id now rid).trace
        = [Act.spamCheck, Act.roleCheck, Act.storeRead,
            Act.deleteReminderRecord rid, Act.cancelTimers rid,
            Act.deletePendingRecord rid]) := by
  have hop := operator_of_superadmin s user_id hsup
  have hcs := check_spam_operator s user_id now hop
  constructor
  · intro r hr
    simp [delete_reminder, hcs, hr, hsup]
  · intro req hreq
    simp [approve_delete, hcs, hreq, hsup]

/-- C2 witness: the concrete approval path, fully evaluated. -/
theorem c2_delete_then_cancel_witness :
    (approve_delete ⟨[⟨1, "superadmin"⟩], [⟨"r1", 100, "m", 2, "u2"⟩], [],
        [⟨"r1", 2, 0⟩], [⟨"r1", 0, 50, "x"⟩], []⟩ 1 0 "r1").trace
      = [Act.spamCheck, Act.roleCheck, Act.storeRead,
          Act.deleteReminderRecord "r1", Act.cancelTimers "r1",
          Act.deletePendingRecord "r1"] :=
  (c2_delete_then_cancel ⟨[⟨1, "superadmin"⟩], [⟨"r1", 100, "m", 2, "u2"⟩], [],
      [⟨"r1", 2, 0⟩], [⟨"r1", 0, 50, "x"⟩], []⟩ 1 0 "r1" 1 (by decide)).2
    ⟨"r1", 2, 0⟩ (by decide)

/-- C5: superadmin `approve(id)`.  With no pending request for `id` the
command replies NotFound and changes nothing; with one, it deletes the
Reminder, cancels its timers, removes the pending record and notifies the
original requester, so an immediately following `approve(id)` replies
NotFound.  Key-uniqueness of the two collections (ObjectId keys, upsert per
`rid`) is assumed as `Pairwise` hypotheses. -/
theorem c5_approve_behavior (s : BotState) (user_id now : Int) (rid : String)
    (hsup : is_superadmin s user_id = true)
    (hpr : s.reminders.Pairwise (fun a b => a.rid ≠ b.rid))
    (hpp : s.pending_deletes.Pairwise (fun a b => a.rid ≠ b.rid)) :
    (s.pending_deletes.find? (fun p => p.rid == rid) = none →
      approve_delete s user_id now rid
        = ⟨s, ["❌ No pending request."], [],
            [Act.spamCheck, Act.roleCheck, Act.storeRead]⟩) ∧
    (∀ req, s.pending_deletes.find? (fun p => p.rid == rid) = some req →
      (approve_delete s user_id now rid).state.reminders.find? (fun r => r.rid == rid)
          = none ∧
      jobsFor rid (approve_delete s user_id now rid).state.jobs = [] ∧
      (approve_delete s user_id now rid).state.pending_deletes.find?
          (fun p => p.rid == rid) = none ∧
      (approve_delete s user_id now rid).messages
          = [(req.requested_by,
              "✅ Your deletion request for " ++ rid ++ " was approved.")] ∧
      ∀ now2, (approve_delete (approve_delete s user_id now rid).state user_id now2
          rid).replies = ["❌ No pending request."]) := by
  have hop := operator_of_superadmin s user_id hsup
  have hcs := check_spam_operator s user_id now hop
  constructor
  · intro hnone
    simp [approve_delete, hcs, hsup, hnone]
  · intro req hreq
    have hres : approve_delete s user_id now rid =
        ⟨{ s with
            reminders := s.reminders.eraseP (fun r => r.rid == rid),
            jobs := remove_reminder_jobs s.jobs rid,
            pending_deletes := s.pending_deletes.eraseP (fun p => p.rid == rid) },
          ["✅ Reminder " ++ rid ++ " deleted after approval."],
          [(req.requested_by, "✅ Your deletion request for " ++ rid ++ " was approved.")],
          [Act.spamCheck, Act.roleCheck, Act.storeRead,
            Act.deleteReminderRecord rid, Act.cancelTimers rid,
            Act.deletePendingRecord rid]⟩ := by
      simp [approve_delete, hcs, hsup, hreq]
    rw [hres]
    refine ⟨?_, ?_, ?_, rfl, ?_⟩
    · exact find?_eraseP_key (fun r => r.rid) s.reminders rid hpr
    · exact jobsFor_remove s.jobs rid
    · exact find?_eraseP_key (fun p => p.rid) s.pending_deletes rid hpp
    · intro now2
      have hsup2 : is_superadmin
          { s with
              reminders := s.reminders.eraseP (fun r => r.rid == rid),
              jobs := remove_reminder_jobs s.jobs rid,
              pending_deletes := s.pending_deletes.eraseP (fun p => p.rid == rid) }
          user_id = true := hsup
      have hop2 := operator_of_superadmin _ user_id hsup2
      have hcs2 := check_spam_operator _ user_id now2 hop2
      have hnone2 := find?_eraseP_key (fun p => p.rid) s.pending_deletes rid hpp
      simp [approve_delete, hcs2, hsup2, hnone2]

/-- C5 witness: a concrete approval of pending reminder "r1" followed by a
second approve. -/
theorem c5_approve_behavior_witness :
    (approve_delete ⟨[⟨1, "superadmin"⟩], [⟨"r1", 100, "m", 2, "u2"⟩], [],
        [⟨"r1", 2, 0⟩], [⟨"r1", 0, 50, "x"⟩], []⟩ 1 0 "r1").state.reminders.find?
        (fun r => r.rid == "r1") = none ∧
    jobsFor "r1" (approve_delete ⟨[⟨1, "superadmin"⟩], [⟨"r1", 100, "m", 2, "u2"⟩], [],
        [⟨"r1", 2, 0⟩], [⟨"r1", 0, 50, "x"⟩], []⟩ 1 0 "r1").state.jobs = [] ∧
    (approve_delete ⟨[⟨1, "superadmin"⟩], [⟨"r1", 100, "m", 2, "u2"⟩], [],
        [⟨"r1", 2, 0⟩], [⟨"r1", 0, 50, "x"⟩], []⟩ 1 0 "r1").state.pending_deletes.find?
        (fun p => p.rid == "r1") = none ∧
    (approve_delete ⟨[⟨1, "superadmin"⟩], [⟨"r1", 100, "m", 2, "u2"⟩], [],
        [⟨"r1", 2, 0⟩], [⟨"r1", 0, 50, "x"⟩], []⟩ 1 0 "r1").messages
        = [(2, "✅ Your deletion request for r1 was approved.")] ∧
    (approve_delete (approve_delete ⟨[⟨1, "superadmin"⟩], [⟨"r1", 100, "m", 2, "u2"⟩], [],
        [⟨"r1", 2, 0⟩], [⟨"r1", 0, 50, "x"⟩], []⟩ 1 0 "r1").state 1 1 "r1").replies
        = ["❌ No pending request."] := by
  have h := (c5_approve_behavior ⟨[⟨1, "superadmin"⟩], [⟨"r1", 100, "m", 2, "u2"⟩], [],
      [⟨"r1", 2, 0⟩], [⟨"r1", 0, 50, "x"⟩], []⟩ 1 0 "r1"
      (by decide) (by decide) (by decide)).2 ⟨"r1", 2, 0⟩ (by decide)
  exact ⟨h.1, h.2.1, h.2.2.1, h.2.2.2.1, h.2.2.2.2 1⟩

/-- C6: superadmin `reject(id)` with an existing pending request removes
only the pending record — the Reminder collection and the timer registry
are left literally unchanged — and notifies the requester; with no pending
request it replies NotFound and changes nothing. -/
theorem c6_reject_behavior (s : BotState) (user_id now : Int) (rid : String)
    (hsup : is_superadmin s user_id = true)
    (hpp : s.pending_deletes.Pairwise (fun a b => a.rid ≠ b.rid)) :
    (s.pending_deletes.find? (fun p => p.rid == rid) = none →
      reject_delete s user_id now rid
        = ⟨s, ["❌ No pending request."], [],
            [Act.spamCheck, Act.roleCheck, Act.storeRead]⟩) ∧
    (∀ req, s.pending_deletes.find? (fun p => p.rid == rid) = some req →
      (reject_delete s user_id now rid).state.reminders = s.reminders ∧
      (reject_delete s user_id now rid).state.jobs = s.jobs ∧
      (reject_delete s user_id now rid).state.admins = s.admins ∧
      (reject_delete s user_id now rid).state.blocked = s.blocked ∧
      (reject_delete s user_id now rid).state.pending_deletes.find?
          (fun p => p.rid == rid) = none ∧
      (reject_delete s user_id now rid).messages
          = [(req.requested_by,
              "🚫 Your deletion request for " ++ rid ++ " was rejected.")]) := by
  have hop := operator_of_superadmin s user_id hsup
  have hcs := check_spam_operator s user_id now hop
  constructor
  · intro hnone
    simp [reject_delete, hcs, hsup, hnone]
  · intro req hreq
    have hres : reject_delete s user_id now rid =
        ⟨{ s with pending_deletes := s.pending_deletes.eraseP (fun p => p.rid == rid) },
          ["🚫 Deletion of " ++ rid ++ " rejected."],
          [(req.requested_by, "🚫 Your deletion request for " ++ rid ++ " was rejected.")],
          [Act.spamCheck, Act.roleCheck, Act.storeRead, Act.deletePendingRecord rid]⟩ := by
      simp [reject_delete, hcs, hsup, hreq]
    rw [hres]
    exact ⟨rfl, rfl, rfl, rfl,
      find?_eraseP_key (fun p => p.rid) s.pending_deletes rid hpp, rfl⟩

/-- C6 witness: a concrete rejection of the pending request for "r1". -/
theorem c6_reject_behavior_witness :
    (reject_delete ⟨[⟨1, "superadmin"⟩], [⟨"r1", 100, "m", 2, "u2"⟩], [],
        [⟨"r1", 2, 0⟩], [⟨"r1", 0, 50, "x"⟩], []⟩ 1 0 "r1").state.reminders
        = [⟨"r1", 100, "m", 2, "u2"⟩] ∧
    (reject_delete ⟨[⟨1, "superadmin"⟩], [⟨"r1", 100, "m", 2, "u2"⟩], [],
        [⟨"r1", 2, 0⟩], [⟨"r1", 0, 50, "x"⟩], []⟩ 1 0 "r1").state.jobs
        = [⟨"r1", 0, 50, "x"⟩] ∧
    (reject_delete ⟨[⟨1, "superadmin"⟩], [⟨"r1", 100, "m", 2, "u2"⟩], [],
        [⟨"r1", 2, 0⟩], [⟨"r1", 0, 50, "x"⟩], []⟩ 1 0 "r1").state.pending_deletes.find?
        (fun p => p.rid == "r1") = none ∧
    (reject_delete ⟨[⟨1, "superadmin"⟩], [⟨"r1", 100, "m", 2, "u2"⟩], [],
        [⟨"r1", 2, 0⟩], [⟨"r1", 0, 50, "x"⟩], []⟩ 1 0 "r1").messages
        = [(2, "🚫 Your deletion request for r1 was rejected.")] := by
  have h := (c6_reject_behavior ⟨[⟨1, "superadmin"⟩], [⟨"r1", 100, "m", 2, "u2"⟩], [],
      [⟨"r1", 2, 0⟩], [⟨"r1", 0, 50, "x"⟩], []⟩ 1 0 "r1"
      (by decide) (by decide)).2 ⟨"r1", 2, 0⟩ (by decide)
  exact ⟨h.1, h.2.1, h.2.2.2.2.1, h.2.2.2.2.2⟩

/-- Startup seeding (source lines 46-48): insert the superadmin role entry
if no document with role "superadmin" exists. -/
def seed_superadmin (adm : List RoleEntry) (superadmin_id : Int) : List RoleEntry :=
  if adm.any (fun a => a.role == "superadmin") then adm
  else adm ++ [⟨superadmin_id, "superadmin"⟩]

/-- An admin-store operation reachable through normal commands. -/
inductive AdminOp where
  | add (user_id : Int)
  | remove (user_id : Int)
deriving DecidableEq

/-- The admins-collection effect of `add_admin` (insert role "admin" unless
any entry exists for the user) and of `remove_admin`
(`delete_one({user_id, role: "admin"})`). -/
def applyAdminOp (adm : List RoleEntry) : AdminOp → List RoleEntry
  | AdminOp.add user_id =>
      if adm.any (fun a => a.user_id == user_id) then adm
      else adm ++ [⟨user_id, "admin"⟩]
  | AdminOp.remove user_id =>
      adm.eraseP (fun a => a.user_id == user_id && a.role == "admin")

/-- A whole sequence of addAdmin/removeAdmin operations. -/
def applyAdminOps (adm : List RoleEntry) (ops : List AdminOp) : List RoleEntry :=
  ops.foldl applyAdminOp adm

theorem filter_eraseP_disjoint {α : Type} (p q : α → Bool) (l : List α)
    (h : ∀ x, p x = true → q x = false) :
    (l.eraseP p).filter q = l.filter q := by
  induction l with
  | nil => rfl
  | cons x xs ih =>
      by_cases hp : p x = true
      · simp only [List.eraseP_cons, hp, cond_true]
        simp [List.filter_cons, h x hp]
      · have hp2 : p x = false := Bool.eq_false_iff.mpr hp
        simp only [List.eraseP_cons, hp2, cond_false]
        simp [List.filter_cons, ih]

/-- Each addAdmin/removeAdmin leaves the superadmin entries untouched. -/
theorem superadmins_applyAdminOp (adm : List RoleEntry) (op : AdminOp) :
    (applyAdminOp adm op).filter (fun a => a.role == "superadmin")
      = adm.filter (fun a => a.role == "superadmin") := by
  cases op with
  | add user_id =>
      by_cases h : adm.any (fun a => a.user_id == user_id)
      · simp [applyAdminOp, h]
      · simp [applyAdminOp, h, List.filter_append]
  | remove user_id =>
      apply filter_eraseP_disjoint
      intro x hx
      simp only [Bool.and_eq_true, beq_iff_eq] at hx
      simp [hx.2]

theorem superadmins_applyAdminOps (adm : List RoleEntry) (ops : List AdminOp) :
    (applyAdminOps adm ops).filter (fun a => a.role == "superadmin")
      = adm.filter (fun a => a.role == "superadmin") := by
  induction ops generalizing adm with
  | nil => rfl
  | cons op rest ih =>
      simp only [applyAdminOps, List.foldl_cons]
      rw [show List.foldl applyAdminOp (applyAdminOp adm op) rest
          = applyAdminOps (applyAdminOp adm op) rest from rfl, ih,
        superadmins_applyAdminOp]

/-- C7: starting from an admins collection holding at most one superadmin
entry (e.g. a fresh database), startup seeding makes it exactly one, and
any sequence of addAdmin/removeAdmin operations preserves both the count
and the entries themselves: removeAdmin only ever deletes role "admin"
documents and addAdmin only ever inserts role "admin" documents. -/
theorem c7_superadmin_invariant (adm : List RoleEntry) (superadmin_id : Int)
    (ops : List AdminOp)
    (h : (adm.filter (fun a => a.role == "superadmin")).length ≤ 1) :
    ((applyAdminOps (seed_superadmin adm superadmin_id) ops).filter
        (fun a => a.role == "superadmin")).length = 1 ∧
    (applyAdminOps (seed_superadmin adm superadmin_id) ops).filter
        (fun a => a.role == "superadmin")
      = (seed_superadmin adm superadmin_id).filter (fun a => a.role == "superadmin") := by
  have hseed : ((seed_superadmin adm superadmin_id).filter
      (fun a => a.role == "superadmin")).length = 1 := by
    by_cases hs : adm.any (fun a => a.role == "superadmin")
    · have hseq : seed_superadmin adm superadmin_id = adm := by
        unfold seed_superadmin
        rw [if_pos hs]
      rw [hseq]
      have hex : ∃ a ∈ adm, (fun a => a.role == "superadmin") a = true := by
        simpa [List.any_eq_true] using hs
      obtain ⟨a, ha, hrole⟩ := hex
      have hmem : a ∈ adm.filter (fun a => a.role == "superadmin") :=
        List.mem_filter.mpr ⟨ha, hrole⟩
      have hpos : 0 < (adm.filter (fun a => a.role == "superadmin")).length :=
        List.length_pos_of_mem hmem
      omega
    · have hseq : seed_superadmin adm superadmin_id
          = adm ++ [⟨superadmin_id, "superadmin"⟩] := by
        unfold seed_superadmin
        rw [if_neg hs]
      rw [hseq, List.filter_append]
      have hnil : adm.filter (fun a => a.role == "superadmin") = [] := by
        rw [List.filter_eq_nil_iff]
        intro a ha
        intro hcontra
        exact absurd (List.any_eq_true.mpr ⟨a, ha, hcontra⟩) hs
      simp [hnil]
  exact ⟨by rw [superadmins_applyAdminOps, hseed],
    superadmins_applyAdminOps (seed_superadmin adm superadmin_id) ops⟩

/-- C7 witness: from an empty admins collection, seeding then adding admin 2,
removing admin 2, and attempting to remove the superadmin id 1 leaves
exactly the seeded superadmin entry. -/
theorem c7_superadmin_invariant_witness :
    ((applyAdminOps (seed_superadmin [] 1)
        [AdminOp.add 2, AdminOp.remove 2, AdminOp.remove 1]).filter
        (fun a => a.role == "superadmin")).length = 1 :=
  (c7_superadmin_invariant [] 1 [AdminOp.add 2, AdminOp.remove 2, AdminOp.remove 1]
    (by decide)).1

/-- `check_spam` never touches the admins, reminders, pending-deletes or
job collections, and when it allows the request it also leaves the block
list unchanged (only the in-memory window may change). -/
theorem check_spam_preserves (s : BotState) (user_id now : Int) :
    (check_spam s user_id now).state.admins = s.admins ∧
    (check_spam s user_id now).state.reminders = s.reminders ∧
    (check_spam s user_id now).state.pending_deletes = s.pending_deletes ∧
    (check_spam s user_id now).state.jobs = s.jobs ∧
    ((check_spam s user_id now).allowed = true →
      (check_spam s user_id now).state.blocked = s.blocked) := by
  by_cases h1 : is_admin_or_superadmin s user_id = true
  · simp [check_spam, h1]
  · by_cases h2 : is_blocked s user_id = true
    · simp [check_spam, h1, h2]
    · have h1f : is_admin_or_superadmin s user_id = false := Bool.eq_false_iff.mpr h1
      have h2f : is_blocked s user_id = false := Bool.eq_false_iff.mpr h2
      by_cases h3 : (rate_limit s.user_requests s.blocked user_id now).allowed = true
      · have hbl : (rate_limit s.user_requests s.blocked user_id now).blocked
            = s.blocked := by
          unfold rate_limit at h3 ⊢
          by_cases hc : REQUEST_LIMIT <
              ((getRequests s.user_requests user_id).filter
                (fun t => now - t < TIME_WINDOW)).length + 1
          · simp [hc] at h3
          · simp [hc]
        simp [check_spam, h1f, h2f, h3, hbl]
      · have h3f : (rate_limit s.user_requests s.blocked user_id now).allowed = false :=
          Bool.eq_false_iff.mpr h3
        simp [check_spam, h1f, h2f, h3f]

/-- Coarse per-command skeletons of the handler bodies, in source order:
which checks, reads, writes, replies and sends each handler performs on its
main path. -/
inductive SkAct where
  | spamCheck
  | roleCheck
  | storeRead
  | storeWrite
  | timerWrite
  | reply
  | send
deriving DecidableEq

/-- The commands registered in `main`. -/
def command_names : List String :=
  ["start", "ping", "remind", "listreminders", "deletereminder", "approve", "reject",
   "addadmin", "removeadmin", "listadmins", "broadcast", "unblock", "listblocked"]

/-- The statement skeleton of each handler, straight from the source: every
handler's first statement is `if not await check_spam(update): return` —
except `ping`, whose body is a single reply. -/
def handler_skeleton : String → List SkAct
  | "start" => [SkAct.spamCheck, SkAct.reply]
  | "ping" => [SkAct.reply]
  | "remind" => [SkAct.spamCheck, SkAct.roleCheck, SkAct.storeWrite, SkAct.timerWrite,
      SkAct.reply, SkAct.send]
  | "listreminders" => [SkAct.spamCheck, SkAct.storeRead, SkAct.reply]
  | "deletereminder" => [SkAct.spamCheck, SkAct.storeRead, SkAct.roleCheck,
      SkAct.storeWrite, SkAct.timerWrite, SkAct.reply]
  | "approve" => [SkAct.spamCheck, SkAct.roleCheck, SkAct.storeRead, SkAct.storeWrite,
      SkAct.timerWrite, SkAct.storeWrite, SkAct.reply, SkAct.send]
  | "reject" => [SkAct.spamCheck, SkAct.roleCheck, SkAct.storeRead, SkAct.storeWrite,
      SkAct.reply, SkAct.send]
  | "addadmin" => [SkAct.spamCheck, SkAct.roleCheck, SkAct.storeRead, SkAct.storeWrite,
      SkAct.reply]
  | "removeadmin" => [SkAct.spamCheck, SkAct.roleCheck, SkAct.storeWrite, SkAct.reply]
  | "listadmins" => [SkAct.spamCheck, SkAct.roleCheck, SkAct.storeRead, SkAct.reply]
  | "broadcast" => [SkAct.spamCheck, SkAct.roleCheck, SkAct.send, SkAct.reply]
  | "unblock" => [SkAct.spamCheck, SkAct.roleCheck, SkAct.storeRead, SkAct.storeWrite,
      SkAct.reply]
  | "listblocked" => [SkAct.spamCheck, SkAct.roleCheck, SkAct.storeRead, SkAct.reply]
  | _ => []

/-- C8 counterexample: `ping` is a registered command reachable by any
caller, and its handler performs no abuse-guard check at all — its skeleton
does not begin with (or even contain) the spam check. -/
theorem c8_counterexample :
    "ping" ∈ command_names ∧
    handler_skeleton "ping" = [SkAct.reply] ∧
    ¬(SkAct.spamCheck ∈ handler_skeleton "ping") := by
  refine ⟨by decide, rfl, by decide⟩

/-- C8 (amended): every registered command handler except `ping` runs the
abuse-guard check as its very first action, before any role check or store
or timer mutation; `ping` skips the check but performs no role check and no
store or timer mutation, only a reply. -/
theorem c8_spam_check_first :
    (∀ cmd ∈ command_names, cmd ≠ "ping" →
      (handler_skeleton cmd).head? = some SkAct.spamCheck) ∧
    ¬(SkAct.storeWrite ∈ handler_skeleton "ping") ∧
    ¬(SkAct.timerWrite ∈ handler_skeleton "ping") ∧
    ¬(SkAct.roleCheck ∈ handler_skeleton "ping") := by
  refine ⟨?_, by decide, by decide, by decide⟩
  intro cmd hmem hne
  fin_cases hmem <;> first | rfl | exact absurd rfl hne

/-- C8 witness: the `remind` handler's first action is the spam check. -/
theorem c8_spam_check_first_witness :
    (handler_skeleton "remind").head? = some SkAct.spamCheck :=
  c8_spam_check_first.1 "remind" (by decide) (by decide)

theorem is_superadmin_congr (s1 s2 : BotState) (user_id : Int)
    (h : s1.admins = s2.admins) : is_superadmin s1 user_id = is_superadmin s2 user_id := by
  unfold is_superadmin
  rw [h]

theorem is_admin_or_superadmin_congr (s1 s2 : BotState) (user_id : Int)
    (h : s1.admins = s2.admins) :
    is_admin_or_superadmin s1 user_id = is_admin_or_superadmin s2 user_id := by
  unfold is_admin_or_superadmin
  rw [h]

theorem not_superadmin_of_not_operator (s : BotState) (user_id : Int)
    (h : is_admin_or_superadmin s user_id = false) : is_superadmin s user_id = false := by
  cases hx : is_superadmin s user_id
  · rfl
  · rw [operator_of_superadmin s user_id hx] at h
    exact h

/-- C9 counterexample: admin 2 (not superadmin) calls `approve` on an
existing pending request.  The operation aborts without any mutation — but
also without any reply: no Unauthorized error is reported to the caller,
the handler returns silently. -/
theorem c9_counterexample :
    approve_delete ⟨[⟨1, "superadmin"⟩, ⟨2, "admin"⟩], [⟨"r1", 100, "m", 2, "u2"⟩], [],
        [⟨"r1", 3, 0⟩], [], []⟩ 2 0 "r1"
      = ⟨⟨[⟨1, "superadmin"⟩, ⟨2, "admin"⟩], [⟨"r1", 100, "m", 2, "u2"⟩], [],
          [⟨"r1", 3, 0⟩], [], []⟩, [], [], [Act.spamCheck, Act.roleCheck]⟩ := by
  decide

/-- C9 (amended): a caller with insufficient role aborts the operation
before any store or timer mutation, but the code reports no error back:
`approve` and `reject` by a non-superadmin return silently with no reply,
and `deletereminder` by a non-operator on an existing reminder likewise
falls through both role branches and replies nothing. -/
theorem c9_unauthorized_aborts_silently (s : BotState) (a u now : Int) (rid : String)
    (chat : Int) (r : Reminder)
    (hadm : is_admin_or_superadmin s a = true)
    (hnsup : is_superadmin s a = false)
    (hnop : is_admin_or_superadmin s u = false)
    (hspam : (check_spam s u now).allowed = true)
    (hfind : s.reminders.find? (fun x => x.rid == rid) = some r) :
    approve_delete s a now rid = ⟨s, [], [], [Act.spamCheck, Act.roleCheck]⟩ ∧
    reject_delete s a now rid = ⟨s, [], [], [Act.spamCheck, Act.roleCheck]⟩ ∧
    (delete_reminder s u now rid chat).state.admins = s.admins ∧
    (delete_reminder s u now rid chat).state.reminders = s.reminders ∧
    (delete_reminder s u now rid chat).state.blocked = s.blocked ∧
    (delete_reminder s u now rid chat).state.pending_deletes = s.pending_deletes ∧
    (delete_reminder s u now rid chat).state.jobs = s.jobs ∧
    (delete_reminder s u now rid chat).replies = [] := by
  have hcs := check_spam_operator s a now hadm
  obtain ⟨pa, prm, ppd, pj, pb⟩ := check_spam_preserves s u now
  have hb := pb hspam
  have h1 : (check_spam s u now).state.reminders.find? (fun x => x.rid == rid) = some r := by
    rw [prm]
    exact hfind
  have hnao : is_admin_or_superadmin (check_spam s u now).state u = false := by
    rw [is_admin_or_superadmin_congr _ s u pa]
    exact hnop
  have hnsu : is_superadmin (check_spam s u now).state u = false :=
    not_superadmin_of_not_operator _ u hnao
  have hres : delete_reminder s u now rid chat
      = ⟨(check_spam s u now).state, [], [],
          [Act.spamCheck, Act.storeRead, Act.roleCheck]⟩ := by
    simp [delete_reminder, hspam, h1, hnsu, hnao]
  refine ⟨?_, ?_, ?_, ?_, ?_, ?_, ?_, ?_⟩
  · simp [approve_delete, hcs, hnsup]
  · simp [reject_delete, hcs, hnsup]
  · rw [hres]; exact pa
  · rw [hres]; exact prm
  · rw [hres]; exact hb
  · rw [hres]; exact ppd
  · rw [hres]; exact pj
  · rw [hres]

/-- C9 witness: admin 2 approves, non-operator 3 deletes; both abort with
no reply and no durable mutation. -/
theorem c9_unauthorized_aborts_silently_witness :
    reject_delete ⟨[⟨1, "superadmin"⟩, ⟨2, "admin"⟩], [⟨"r1", 100, "m", 2, "u2"⟩], [],
        [⟨"r1", 3, 0⟩], [], []⟩ 2 0 "r1"
      = ⟨⟨[⟨1, "superadmin"⟩, ⟨2, "admin"⟩], [⟨"r1", 100, "m", 2, "u2"⟩], [],
          [⟨"r1", 3, 0⟩], [], []⟩, [], [], [Act.spamCheck, Act.roleCheck]⟩ ∧
    (delete_reminder ⟨[⟨1, "superadmin"⟩, ⟨2, "admin"⟩], [⟨"r1", 100, "m", 2, "u2"⟩], [],
        [⟨"r1", 3, 0⟩], [], []⟩ 3 0 "r1" 1).replies = [] ∧
    (delete_reminder ⟨[⟨1, "superadmin"⟩, ⟨2, "admin"⟩], [⟨"r1", 100, "m", 2, "u2"⟩], [],
        [⟨"r1", 3, 0⟩], [], []⟩ 3 0 "r1" 1).state.reminders = [⟨"r1", 100, "m", 2, "u2"⟩] := by
  have h := c9_unauthorized_aborts_silently
    ⟨[⟨1, "superadmin"⟩, ⟨2, "admin"⟩], [⟨"r1", 100, "m", 2, "u2"⟩], [],
      [⟨"r1", 3, 0⟩], [], []⟩ 2 3 0 "r1" 1 ⟨"r1", 100, "m", 2, "u2"⟩
    (by decide) (by decide) (by decide) (by decide) (by decide)
  exact ⟨h.2.1, h.2.2.2.2.2.2.2, h.2.2.2.1⟩

/-- C10 counterexample: caller 42 holds no role entry but is on the block
list.  `remind` from this caller inserts nothing and schedules nothing, but
the reply is the blocked message, not the claimed authorization error. -/
theorem c10_counterexample :
    is_admin_or_superadmin ⟨[⟨1, "superadmin"⟩], [], [⟨42, "Spam detected", 0⟩], [], [],
        []⟩ 42 = false ∧
    (remind ⟨[⟨1, "superadmin"⟩], [], [⟨42, "Spam detected", 0⟩], [], [], []⟩ 42 5 100
        "hello" "r9" "u42" 99).replies
      = ["⛔ You are blocked. Contact the superadmin to be unblocked."] ∧
    ¬("❌ You are not an admin." ∈
      (remind ⟨[⟨1, "superadmin"⟩], [], [⟨42, "Spam detected", 0⟩], [], [], []⟩ 42 5 100
        "hello" "r9" "u42" 99).replies) := by
  refine ⟨by decide, by decide, by decide⟩

/-- C10 (amended): a caller without a role entry never gets a Reminder
inserted or timers registered by `remind`; when such a caller passes the
abuse guard the reply is the authorization error (a blocked or rate-limited
caller instead receives the guard's own message). -/
theorem c10_remind_requires_operator (s : BotState) (user_id now rtime : Int)
    (msg fresh cname : String) (chan : Int)
    (hnop : is_admin_or_superadmin s user_id = false) :
    (remind s user_id now rtime msg fresh cname chan).state.reminders = s.reminders ∧
    (remind s user_id now rtime msg fresh cname chan).state.jobs = s.jobs ∧
    ((check_spam s user_id now).allowed = true →
      (remind s user_id now rtime msg fresh cname chan).replies
        = ["❌ You are not an admin."]) := by
  obtain ⟨pa, prm, ppd, pj, pb⟩ := check_spam_preserves s user_id now
  by_cases hsp : (check_spam s user_id now).allowed = true
  · have hnao : is_admin_or_superadmin (check_spam s user_id now).state user_id = false := by
      rw [is_admin_or_superadmin_congr _ s user_id pa]
      exact hnop
    have hres : remind s user_id now rtime msg fresh cname chan
        = ⟨(check_spam s user_id now).state, ["❌ You are not an admin."], [],
            [Act.spamCheck, Act.roleCheck]⟩ := by
      simp [remind, hsp, hnao]
    refine ⟨?_, ?_, fun _ => ?_⟩
    · rw [hres]; exact prm
    · rw [hres]; exact pj
    · rw [hres]
  · have hspf : (check_spam s user_id now).allowed = false := Bool.eq_false_iff.mpr hsp
    have hres : remind s user_id now rtime msg fresh cname chan
        = ⟨(check_spam s user_id now).state, (check_spam s user_id now).replies, [],
            [Act.spamCheck]⟩ := by
      simp [remind, hspf]
    refine ⟨?_, ?_, fun hcontra => ?_⟩
    · rw [hres]; exact prm
    · rw [hres]; exact pj
    · rw [hcontra] at hspf
      exact absurd hspf (by simp)

/-- C10 witness: a roleless caller in a fresh state passes the guard and is
turned away with the authorization error, with no reminder inserted and no
timer registered. -/
theorem c10_remind_requires_operator_witness :
    (remind ⟨[⟨1, "superadmin"⟩], [], [], [], [], []⟩ 3 0 100 "hello" "r9" "u3"
        99).state.reminders = [] ∧
    (remind ⟨[⟨1, "superadmin"⟩], [], [], [], [], []⟩ 3 0 100 "hello" "r9" "u3"
        99).state.jobs = [] ∧
    (remind ⟨[⟨1, "superadmin"⟩], [], [], [], [], []⟩ 3 0 100 "hello" "r9" "u3"
        99).replies = ["❌ You are not an admin."] := by
  have h := c10_remind_requires_operator ⟨[⟨1, "superadmin"⟩], [], [], [], [], []⟩ 3 0 100
    "hello" "r9" "u3" 99 (by decide)
  exact ⟨h.1, h.2.1, h.2.2 (by decide)⟩
